import Mathlib

/-
Verification of the geforcenow-awdl0 daemon.

The development shallowly embeds the interface-actuation layer
(src/interface.rs) and the event-coordination layer (the callbacks in
src/main.rs together with the notification handler and fullscreen polling
loop of src/process_monitor.rs).  Machine integers are modelled as Nat
(the 16-bit interface flag word) and Int (pids); fallible operations
return Except; the OS side effects of the ioctl syscalls are modelled by
explicit state passing over an `OsIface` record, and every operation also
reports the list of syscalls it attempted.
-/

namespace GeforceAwdl

/-! ## Interface actuation layer (src/interface.rs) -/

/-- An interface name, as its byte sequence (Rust `&str`, UTF-8 bytes). -/
abbrev Name := List Nat

/-- Mirror of `InterfaceError` in src/interface.rs. -/
inductive InterfaceError where
  | SocketCreation
  | NameTooLong (name : Name)
  | InvalidName (name : Name)
  | Ioctl
  | NotFound (name : Name)
deriving DecidableEq

/-- The syscalls that the interface layer can attempt: `socket(2)`,
the `SIOCGIFFLAGS` read ioctl and the `SIOCSIFFLAGS` write ioctl. -/
inductive Syscall where
  | sockOpen
  | ioctlGet
  | ioctlSet
deriving DecidableEq

/-- Model of the OS state visible to the interface layer: whether the
interface exists, its 16-bit flag word, and whether the three syscalls
succeed (failure injection for the error paths). -/
structure OsIface where
  present : Bool
  flags : Nat
  sockOk : Bool
  readOk : Bool
  writeOk : Bool
deriving DecidableEq

/-- `IFF_UP`, the "up" flag bit (bit 0). -/
def IFF_UP : Nat := 1

/-- `!IFF_UP` as a 16-bit word (the flag field is an `i16`). -/
def NOT_IFF_UP : Nat := 65534

/-- Mirror of `MacOsInterfaceController::validate_name`: reject names
longer than 15 bytes, then reject names with an embedded null byte
(`CString::new` failure). -/
def validate_name (name : Name) : Except InterfaceError Unit :=
  if 15 < name.length then Except.error (InterfaceError.NameTooLong name)
  else if name.contains 0 then Except.error (InterfaceError.InvalidName name)
  else Except.ok ()

/-- Mirror of `MacOsInterfaceController::get_flags`: create a socket,
validate the name, then issue the `SIOCGIFFLAGS` ioctl.  Returns the
result together with the syscalls attempted; never modifies the OS
state. -/
def get_flags (os : OsIface) (name : Name) :
    Except InterfaceError Nat × List Syscall :=
  if os.sockOk = false then (Except.error InterfaceError.SocketCreation, [Syscall.sockOpen])
  else
    match validate_name name with
    | Except.error e => (Except.error e, [Syscall.sockOpen])
    | Except.ok _ =>
      if os.present = false then
        (Except.error (InterfaceError.NotFound name), [Syscall.sockOpen, Syscall.ioctlGet])
      else if os.readOk = false then
        (Except.error InterfaceError.Ioctl, [Syscall.sockOpen, Syscall.ioctlGet])
      else (Except.ok os.flags, [Syscall.sockOpen, Syscall.ioctlGet])

/-- Mirror of `MacOsInterfaceController::set_flags`: create a socket,
validate the name, then issue the `SIOCSIFFLAGS` ioctl, which stores the
new flag word on success. -/
def set_flags (os : OsIface) (name : Name) (flags : Nat) :
    Except InterfaceError Unit × OsIface × List Syscall :=
  if os.sockOk = false then
    (Except.error InterfaceError.SocketCreation, os, [Syscall.sockOpen])
  else
    match validate_name name with
    | Except.error e => (Except.error e, os, [Syscall.sockOpen])
    | Except.ok _ =>
      if os.present = false then
        (Except.error (InterfaceError.NotFound name), os, [Syscall.sockOpen, Syscall.ioctlSet])
      else if os.writeOk = false then
        (Except.error InterfaceError.Ioctl, os, [Syscall.sockOpen, Syscall.ioctlSet])
      else (Except.ok (), { os with flags := flags }, [Syscall.sockOpen, Syscall.ioctlSet])

/-- `(current_flags & IFF_UP) != 0`, the up test used by all three
operations. -/
def flagsUp (f : Nat) : Bool := f &&& IFF_UP != 0

/-- Mirror of `bring_down`: read the flags; if the up flag is already
clear, no-op; otherwise write back the flags with only the up flag
cleared. -/
def bring_down (os : OsIface) (name : Name) :
    Except InterfaceError Unit × OsIface × List Syscall :=
  match get_flags os name with
  | (Except.error e, tr) => (Except.error e, os, tr)
  | (Except.ok current_flags, tr) =>
    if flagsUp current_flags = false then (Except.ok (), os, tr)
    else
      match set_flags os name (current_flags &&& NOT_IFF_UP) with
      | (Except.error e, os2, tr2) => (Except.error e, os2, tr ++ tr2)
      | (Except.ok _, os2, tr2) => (Except.ok (), os2, tr ++ tr2)

/-- Mirror of `allow_up`: read the flags, treating `NotFound` as a soft
success; if the up flag is already set, no-op; otherwise write back the
flags with the up flag set. -/
def allow_up (os : OsIface) (name : Name) :
    Except InterfaceError Unit × OsIface × List Syscall :=
  match get_flags os name with
  | (Except.error (InterfaceError.NotFound _), tr) => (Except.ok (), os, tr)
  | (Except.error e, tr) => (Except.error e, os, tr)
  | (Except.ok current_flags, tr) =>
    if flagsUp current_flags = true then (Except.ok (), os, tr)
    else
      match set_flags os name (current_flags ||| IFF_UP) with
      | (Except.error e, os2, tr2) => (Except.error e, os2, tr ++ tr2)
      | (Except.ok _, os2, tr2) => (Except.ok (), os2, tr ++ tr2)

/-- Mirror of `is_up`: read the flags and report the up bit. -/
def is_up (os : OsIface) (name : Name) :
    Except InterfaceError Bool × OsIface × List Syscall :=
  match get_flags os name with
  | (Except.error e, tr) => (Except.error e, os, tr)
  | (Except.ok flags, tr) => (Except.ok (flagsUp flags), os, tr)

deriving instance DecidableEq for Except

/-! ## Event coordination layer (src/main.rs and src/process_monitor.rs)

The daemon state gathers the shared atomics: `current_pid` and
`is_streaming` and `polling_active` from `ProcessMonitor`, and the
`gfn_streaming` flag of `run_daemon`, together with the modelled OS
interface state.  The serialized event sources are: the workspace
launch/terminate notifications (`handle_notification`), one iteration of
the fullscreen polling loop (`start_fullscreen_polling`), the interface
link-change callback, and out-of-band OS changes to the interface. -/

/-- The interface the daemon controls: the bytes of the string awdl0
(`AWDL_INTERFACE` in src/main.rs). -/
def AWDL_INTERFACE : Name := [97, 119, 100, 108, 48]

/-- Mirror of `ProcessEvent` in src/process_monitor.rs. -/
inductive ProcessEvent where
  | Launched (bundle_id : String) (pid : Int)
  | Terminated (bundle_id : String) (pid : Int)
  | StreamStarted (bundle_id : String) (pid : Int)
  | StreamEnded (bundle_id : String) (pid : Int)
deriving DecidableEq

/-- The actuation and query calls the callbacks make on the
`InterfaceController`. -/
inductive Act where
  | bringDown
  | allowUp
  | isUp
deriving DecidableEq

/-- The shared mutable state of the daemon plus the modelled OS state. -/
structure Daemon where
  currentPid : Int
  isStreaming : Bool
  pollingActive : Bool
  gfnStreaming : Bool
  os : OsIface
deriving DecidableEq

/-- Output of one invocation of the process-event callback: the new
`gfn_streaming` value, the new OS state, and the controller calls made. -/
structure CbOut where
  gfn : Bool
  os : OsIface
  acts : List Act
deriving DecidableEq

/-- Mirror of the closure built by `create_process_callback` in
src/main.rs: Launched is logged only; Terminated swaps `gfn_streaming`
to false and calls `allow_up` if it was set; StreamStarted stores true
and calls `bring_down`; StreamEnded stores false and calls `allow_up`.
Actuation errors are logged and otherwise ignored. -/
def process_callback (ev : ProcessEvent) (gfn : Bool) (os : OsIface) : CbOut :=
  match ev with
  | ProcessEvent.Launched _ _ => ⟨gfn, os, []⟩
  | ProcessEvent.Terminated _ _ =>
    if gfn then ⟨false, (allow_up os AWDL_INTERFACE).2.1, [Act.allowUp]⟩
    else ⟨false, os, []⟩
  | ProcessEvent.StreamStarted _ _ =>
    ⟨true, (bring_down os AWDL_INTERFACE).2.1, [Act.bringDown]⟩
  | ProcessEvent.StreamEnded _ _ =>
    ⟨false, (allow_up os AWDL_INTERFACE).2.1, [Act.allowUp]⟩

/-- Mirror of the closure built by `create_interface_callback` in
src/main.rs: on a state-change event, if `gfn_streaming` is set, query
`is_up`; on `Ok(true)` call `bring_down` again, on `Ok(false)` or an
error do nothing further; if not streaming, ignore the event. -/
def interface_callback (gfn : Bool) (os : OsIface) : OsIface × List Act :=
  if gfn then
    match (is_up os AWDL_INTERFACE).1 with
    | Except.ok true => ((bring_down os AWDL_INTERFACE).2.1, [Act.isUp, Act.bringDown])
    | Except.ok false => (os, [Act.isUp])
    | Except.error _ => (os, [Act.isUp])
  else (os, [])

/-- Mirror of `handle_notification` in src/process_monitor.rs for a
launch or terminate workspace notification carrying `bundle` and `pid`.
Notifications for other bundle ids are ignored.  A launch stores the
pid, emits Launched and starts the polling thread; a terminate stops
polling, emits StreamEnded first if `is_streaming` was set, clears the
pid and emits Terminated.  Returns the new state, the controller calls
made, and the events delivered to the callback. -/
def handle_notification (target bundle : String) (pid : Int) (is_launch : Bool)
    (s : Daemon) : Daemon × List Act × List ProcessEvent :=
  if bundle ≠ target then (s, [], [])
  else if is_launch then
    let c := process_callback (ProcessEvent.Launched bundle pid) s.gfnStreaming s.os
    ({ s with currentPid := pid, gfnStreaming := c.gfn, os := c.os, pollingActive := true },
      c.acts, [ProcessEvent.Launched bundle pid])
  else
    let c1 := if s.isStreaming then
        process_callback (ProcessEvent.StreamEnded bundle pid) s.gfnStreaming s.os
      else ⟨s.gfnStreaming, s.os, []⟩
    let c2 := process_callback (ProcessEvent.Terminated bundle pid) c1.gfn c1.os
    ({ s with pollingActive := false, isStreaming := false, currentPid := 0,
              gfnStreaming := c2.gfn, os := c2.os },
      c1.acts ++ c2.acts,
      (if s.isStreaming then [ProcessEvent.StreamEnded bundle pid] else []) ++
        [ProcessEvent.Terminated bundle pid])

/-- Mirror of one iteration of the polling loop body in
`start_fullscreen_polling`: if the polling flag was cleared, do nothing
(the thread exits); otherwise compare the fullscreen sample with
`is_streaming` and emit StreamStarted or StreamEnded on the edges. -/
def poll_step (target : String) (s : Daemon) (fullscreen : Bool) :
    Daemon × List Act × List ProcessEvent :=
  if s.pollingActive = false then (s, [], [])
  else
    if fullscreen && !s.isStreaming then
      let c := process_callback (ProcessEvent.StreamStarted target s.currentPid)
        s.gfnStreaming s.os
      ({ s with isStreaming := true, gfnStreaming := c.gfn, os := c.os },
        c.acts, [ProcessEvent.StreamStarted target s.currentPid])
    else if !fullscreen && s.isStreaming then
      let c := process_callback (ProcessEvent.StreamEnded target s.currentPid)
        s.gfnStreaming s.os
      ({ s with isStreaming := false, gfnStreaming := c.gfn, os := c.os },
        c.acts, [ProcessEvent.StreamEnded target s.currentPid])
    else (s, [], [])

/-- One interface link-change notification dispatched to the callback. -/
def link_step (s : Daemon) : Daemon × List Act × List ProcessEvent :=
  let r := interface_callback s.gfnStreaming s.os
  ({ s with os := r.1 }, r.2, [])

/-- The serialized event sources feeding the daemon: a workspace launch
or terminate notification, one fullscreen poll sample, an interface
link-change notification, or an out-of-band change of the interface
state by the OS. -/
inductive Stimulus where
  | launch (bundle : String) (pid : Int)
  | terminate (bundle : String) (pid : Int)
  | poll (fullscreen : Bool)
  | linkChange
  | osExternal (os : OsIface)

/-- Environment well-formedness: the OS only reports positive pids for
launched applications. -/
def Stimulus.wfb : Stimulus → Bool
  | Stimulus.launch _ pid => decide (0 < pid)
  | _ => true

/-- One serialized dispatch of the main loop. -/
def step (target : String) (s : Daemon) : Stimulus → Daemon × List Act × List ProcessEvent
  | Stimulus.launch b p => handle_notification target b p true s
  | Stimulus.terminate b p => handle_notification target b p false s
  | Stimulus.poll f => poll_step target s f
  | Stimulus.linkChange => link_step s
  | Stimulus.osExternal os => ({ s with os := os }, [], [])

/-- The daemon's startup state: no tracked pid, no streaming, polling
inactive (`ProcessMonitor::new` and `run_daemon`). -/
def initDaemon (os : OsIface) : Daemon := ⟨0, false, false, false, os⟩

/-- States reachable from startup by serialized event processing. -/
inductive Reachable (target : String) : Daemon → Prop where
  | init (os : OsIface) : Reachable target (initDaemon os)
  | next (s : Daemon) (st : Stimulus) (h : Reachable target s) (hwf : st.wfb = true) :
      Reachable target (step target s st).1

/-- The coordination invariant: when no process is tracked, the polling
thread is stopped and both streaming flags are clear. -/
def Inv (s : Daemon) : Prop :=
  s.currentPid = 0 →
    s.pollingActive = false ∧ s.isStreaming = false ∧ s.gfnStreaming = false

/-- Iterate the polling loop body over a list of fullscreen samples,
collecting the emitted events (the detector run of the spec). -/
def run_polls (target : String) (s : Daemon) : List Bool → Daemon × List ProcessEvent
  | [] => (s, [])
  | f :: rest =>
    let r := poll_step target s f
    let rr := run_polls target r.1 rest
    (rr.1, r.2.2 ++ rr.2)

/-- Whether an event is StreamStarted. -/
def isStart : ProcessEvent → Bool
  | ProcessEvent.StreamStarted _ _ => true
  | _ => false

/-- Whether an event is StreamEnded. -/
def isEnd : ProcessEvent → Bool
  | ProcessEvent.StreamEnded _ _ => true
  | _ => false

/-- Mirror of `CliError` as used by `run_daemon` in src/main.rs. -/
inductive CliError where
  | Launchctl (msg : String)

/-- Mirror of the shutdown epilogue of `run_daemon` (after the run loop
exits): if `gfn_streaming` is set, make one final `allow_up` call whose
failure is logged but not propagated, then return Ok. -/
def run_daemon_shutdown (gfn : Bool) (os : OsIface) :
    Except CliError Unit × OsIface × List Act :=
  if gfn then (Except.ok (), (allow_up os AWDL_INTERFACE).2.1, [Act.allowUp])
  else (Except.ok (), os, [])

/-- A concrete interface state for witnesses: present and up (flag word
65 = up bit plus bit 6), with all syscalls succeeding. -/
def osUp : OsIface := ⟨true, 65, true, true, true⟩

/-- A concrete interface state for witnesses: present and down (flag
word 64), with all syscalls succeeding. -/
def osDown : OsIface := ⟨true, 64, true, true, true⟩

/-- A concrete reachable daemon state used by counterexamples and
witnesses: launch of the target with pid 100, followed by one fullscreen
poll sample (so the daemon is in Running with streaming set and pid
100). -/
def c4_state : Daemon :=
  (step "t" (step "t" (initDaemon osUp) (Stimulus.launch "t" 100)).1
    (Stimulus.poll true)).1

/-! ### Bit-level helper lemmas -/

theorem land_not_up_land_up (f : Nat) : (f &&& NOT_IFF_UP) &&& IFF_UP = 0 := by
  rw [NOT_IFF_UP, IFF_UP, Nat.land_assoc]
  norm_num

theorem lor_up_land_up (f : Nat) : (f ||| IFF_UP) &&& IFF_UP = 1 := by
  apply Nat.eq_of_testBit_eq
  intro i
  match i with
  | 0 =>
    simp [IFF_UP, Nat.testBit_land, Nat.testBit_lor]
  | j + 1 =>
    simp [IFF_UP, Nat.testBit_land, Nat.testBit_succ]

theorem testBit_not_up_lo : ∀ i, i < 16 → 0 < i → Nat.testBit NOT_IFF_UP i = true := by
  decide

theorem testBit_not_up_zero : Nat.testBit NOT_IFF_UP 0 = false := by decide

theorem testBit_hi_false {f i : Nat} (hf : f < 65536) (hi : 16 ≤ i) :
    Nat.testBit f i = false := by
  apply Nat.testBit_lt_two_pow
  calc f < 65536 := hf
    _ = 2 ^ 16 := by norm_num
    _ ≤ 2 ^ i := Nat.pow_le_pow_right (by norm_num) hi

theorem flagsUp_iff_testBit (f : Nat) : flagsUp f = Nat.testBit f 0 := by
  rw [flagsUp, IFF_UP, Nat.and_one_is_mod]
  rcases Nat.mod_two_eq_zero_or_one f with h | h <;>
    simp [h, Nat.testBit_zero]

/-- Clearing the up bit preserves every other bit (for a 16-bit word). -/
theorem land_not_up_testBit {f : Nat} (hf : f < 65536) {i : Nat} (hi : i ≠ 0) :
    Nat.testBit (f &&& NOT_IFF_UP) i = Nat.testBit f i := by
  rcases Nat.lt_or_ge i 16 with h16 | h16
  · rw [Nat.testBit_land, testBit_not_up_lo i h16 (Nat.pos_of_ne_zero hi), Bool.and_true]
  · rw [Nat.testBit_land, testBit_hi_false hf h16, Bool.false_and]

/-- Setting the up bit preserves every other bit. -/
theorem lor_up_testBit {f : Nat} {i : Nat} (hi : i ≠ 0) :
    Nat.testBit (f ||| IFF_UP) i = Nat.testBit f i := by
  match i, hi with
  | j + 1, _ =>
    rw [Nat.testBit_lor, IFF_UP]
    simp [Nat.testBit_succ]

/-- Clearing then setting the up bit of a word whose up bit was set
restores the word exactly. -/
theorem clear_then_set_eq {f : Nat} (hf : f < 65536) (hup : Nat.testBit f 0 = true) :
    (f &&& NOT_IFF_UP) ||| IFF_UP = f := by
  apply Nat.eq_of_testBit_eq
  intro i
  match i with
  | 0 =>
    rw [hup, Nat.testBit_lor, Nat.testBit_land, testBit_not_up_zero]
    simp [IFF_UP]
  | j + 1 =>
    rw [lor_up_testBit (by simp), land_not_up_testBit hf (by simp)]

theorem land_not_up_lt {f : Nat} (hf : f < 65536) : f &&& NOT_IFF_UP < 65536 :=
  Nat.lt_of_le_of_lt Nat.and_le_left hf

theorem flagsUp_land_not_up (f : Nat) : flagsUp (f &&& NOT_IFF_UP) = false := by
  simp [flagsUp, land_not_up_land_up f]

theorem flagsUp_lor_up (f : Nat) : flagsUp (f ||| IFF_UP) = true := by
  simp [flagsUp, lor_up_land_up f]

/-! ### Characterization of the interface operations -/

theorem get_flags_ok_eq {os : OsIface} {name : Name} {f : Nat} {tr : List Syscall}
    (h : get_flags os name = (Except.ok f, tr)) : f = os.flags := by
  unfold get_flags at h
  split at h
  · simp at h
  · split at h
    · simp at h
    · split at h
      · simp at h
      · split at h
        · simp at h
        · simp at h
          exact h.1.symm

theorem get_flags_trace (os : OsIface) (name : Name) :
    (get_flags os name).2 = [Syscall.sockOpen] ∨
      (get_flags os name).2 = [Syscall.sockOpen, Syscall.ioctlGet] := by
  unfold get_flags
  split
  · exact Or.inl rfl
  · split
    · exact Or.inl rfl
    · split
      · exact Or.inr rfl
      · split
        · exact Or.inr rfl
        · exact Or.inr rfl

theorem set_flags_state (os : OsIface) (name : Name) (fl : Nat) :
    (set_flags os name fl).2.1 = os ∨
      (set_flags os name fl).2.1 = { os with flags := fl } := by
  unfold set_flags
  split
  · exact Or.inl rfl
  · split
    · exact Or.inl rfl
    · split
      · exact Or.inl rfl
      · split
        · exact Or.inl rfl
        · exact Or.inr rfl

/-- A `bring_down` call either leaves the OS state unchanged or clears
exactly the up bit of the flag word. -/
theorem bring_down_state (os : OsIface) (name : Name) :
    (bring_down os name).2.1 = os ∨
      (bring_down os name).2.1 = { os with flags := os.flags &&& NOT_IFF_UP } := by
  unfold bring_down
  split
  · exact Or.inl rfl
  · rename_i current tr heq
    have hc : current = os.flags := get_flags_ok_eq heq
    subst hc
    split
    · exact Or.inl rfl
    · split <;> rename_i os2 tr2 heq2 <;>
      · rcases set_flags_state os name (os.flags &&& NOT_IFF_UP) with h | h <;>
          rw [heq2] at h <;> simp at h <;> simp [h]

/-- If the up flag is already clear, `bring_down` leaves the OS state
unchanged (and likewise on any failure path before the write). -/
theorem bring_down_noop {os : OsIface} (name : Name) (h : flagsUp os.flags = false) :
    (bring_down os name).2.1 = os := by
  unfold bring_down
  split
  · rfl
  · rename_i current tr heq
    have hc : current = os.flags := get_flags_ok_eq heq
    subst hc
    simp [h]

/-- An `allow_up` call either leaves the OS state unchanged or sets
exactly the up bit of the flag word. -/
theorem allow_up_state (os : OsIface) (name : Name) :
    (allow_up os name).2.1 = os ∨
      (allow_up os name).2.1 = { os with flags := os.flags ||| IFF_UP } := by
  unfold allow_up
  split
  · exact Or.inl rfl
  · exact Or.inl rfl
  · rename_i current tr heq
    have hc : current = os.flags := get_flags_ok_eq heq
    subst hc
    split
    · exact Or.inl rfl
    · split <;> rename_i os2 tr2 heq2 <;>
      · rcases set_flags_state os name (os.flags ||| IFF_UP) with h | h <;>
          rw [heq2] at h <;> simp at h <;> simp [h]

/-- If the up flag is already set, `allow_up` leaves the OS state
unchanged (and likewise on any failure path before the write). -/
theorem allow_up_noop {os : OsIface} (name : Name) (h : flagsUp os.flags = true) :
    (allow_up os name).2.1 = os := by
  unfold allow_up
  split
  · rfl
  · rfl
  · rename_i current tr heq
    have hc : current = os.flags := get_flags_ok_eq heq
    subst hc
    simp [h]

/-- Full success run of `bring_down` when the interface is up. -/
theorem bring_down_success (os : OsIface) (name : Name)
    (hp : os.present = true) (hs : os.sockOk = true) (hr : os.readOk = true)
    (hw : os.writeOk = true) (hv : validate_name name = Except.ok ())
    (hup : flagsUp os.flags = true) :
    bring_down os name =
      (Except.ok (), { os with flags := os.flags &&& NOT_IFF_UP },
        [Syscall.sockOpen, Syscall.ioctlGet, Syscall.sockOpen, Syscall.ioctlSet]) := by
  simp [bring_down, get_flags, set_flags, hv, hp, hs, hr, hw, hup]

/-- Full success run of `allow_up` when the interface is down. -/
theorem allow_up_success (os : OsIface) (name : Name)
    (hp : os.present = true) (hs : os.sockOk = true) (hr : os.readOk = true)
    (hw : os.writeOk = true) (hv : validate_name name = Except.ok ())
    (hdown : flagsUp os.flags = false) :
    allow_up os name =
      (Except.ok (), { os with flags := os.flags ||| IFF_UP },
        [Syscall.sockOpen, Syscall.ioctlGet, Syscall.sockOpen, Syscall.ioctlSet]) := by
  simp [allow_up, get_flags, set_flags, hv, hp, hs, hr, hw, hdown]

theorem is_up_state (os : OsIface) (name : Name) : (is_up os name).2.1 = os := by
  unfold is_up
  split <;> rfl

theorem is_up_trace (os : OsIface) (name : Name) :
    (is_up os name).2.2 = (get_flags os name).2 := by
  unfold is_up
  split <;> rename_i heq <;> simp [heq]

/-! ## Claims about the interface actuation layer -/

/-- C5: starting from a flag word with the up flag set and arbitrary
other bits, `bring_down` followed by `allow_up` leaves every bit other
than the up bit unchanged: `bring_down` clears only the up bit,
`allow_up` sets only the up bit, and the final word equals the original
bit for bit. -/
theorem C5_flag_preservation (os : OsIface) (name : Name)
    (hp : os.present = true) (hs : os.sockOk = true) (hr : os.readOk = true)
    (hw : os.writeOk = true) (hv : validate_name name = Except.ok ())
    (hbound : os.flags < 65536) (hup : flagsUp os.flags = true) :
    (∀ i, i ≠ 0 →
      Nat.testBit (bring_down os name).2.1.flags i = Nat.testBit os.flags i) ∧
    Nat.testBit (bring_down os name).2.1.flags 0 = false ∧
    (∀ i, i ≠ 0 →
      Nat.testBit (allow_up (bring_down os name).2.1 name).2.1.flags i =
        Nat.testBit os.flags i) ∧
    (allow_up (bring_down os name).2.1 name).2.1.flags = os.flags := by
  have h1 := bring_down_success os name hp hs hr hw hv hup
  have h2 := allow_up_success { os with flags := os.flags &&& NOT_IFF_UP } name
    hp hs hr hw hv (flagsUp_land_not_up os.flags)
  rw [h1]
  dsimp only
  rw [h2]
  dsimp only
  have hbit : Nat.testBit os.flags 0 = true := by
    rw [← flagsUp_iff_testBit]
    exact hup
  refine ⟨?_, ?_, ?_, ?_⟩
  · intro i hi
    exact land_not_up_testBit hbound hi
  · rw [Nat.testBit_land, testBit_not_up_zero, Bool.and_false]
  · intro i hi
    rw [lor_up_testBit hi, land_not_up_testBit hbound hi]
  · exact clear_then_set_eq hbound hbit

/-- Witness for C5 on a concrete interface whose flag word is 65
(up bit plus bit 6). -/
theorem C5_flag_preservation_witness :
    validate_name [101, 110, 48] = Except.ok () ∧
    (65 : Nat) < 65536 ∧ flagsUp 65 = true ∧
    (allow_up (bring_down (⟨true, 65, true, true, true⟩ : OsIface)
        [101, 110, 48]).2.1 [101, 110, 48]).2.1.flags = 65 :=
  ⟨by decide, by decide, by decide,
    (C5_flag_preservation ⟨true, 65, true, true, true⟩ [101, 110, 48]
      rfl rfl rfl rfl (by decide) (by decide) (by decide)).2.2.2⟩

/-- C6: for every interface state, `bring_down` twice yields the same
final flag state as once, and likewise for `allow_up` (the second call
is a no-op). -/
theorem C6_idempotent (os : OsIface) (name : Name) :
    (bring_down (bring_down os name).2.1 name).2.1 = (bring_down os name).2.1 ∧
    (allow_up (allow_up os name).2.1 name).2.1 = (allow_up os name).2.1 := by
  constructor
  · rcases bring_down_state os name with h | h
    · rw [h]
      exact h
    · rw [h]
      exact bring_down_noop name (flagsUp_land_not_up os.flags)
  · rcases allow_up_state os name with h | h
    · rw [h]
      exact h
    · rw [h]
      exact allow_up_noop name (flagsUp_lor_up os.flags)

/-- C7: on a missing interface, `allow_up` soft-succeeds while
`bring_down` and `is_up` fail with NotFound; any other underlying
failure (read ioctl failure, socket-creation failure, write ioctl
failure) is still propagated by `allow_up`. -/
theorem C7_error_semantics (name : Name) (fl : Nat) (r w : Bool)
    (hv : validate_name name = Except.ok ()) :
    (allow_up ⟨false, fl, true, r, w⟩ name).1 = Except.ok () ∧
    (bring_down ⟨false, fl, true, r, w⟩ name).1 =
      Except.error (InterfaceError.NotFound name) ∧
    (is_up ⟨false, fl, true, r, w⟩ name).1 =
      Except.error (InterfaceError.NotFound name) ∧
    (allow_up ⟨true, fl, true, false, w⟩ name).1 = Except.error InterfaceError.Ioctl ∧
    (allow_up ⟨false, fl, false, r, w⟩ name).1 =
      Except.error InterfaceError.SocketCreation ∧
    (allow_up ⟨true, fl &&& NOT_IFF_UP, true, true, false⟩ name).1 =
      Except.error InterfaceError.Ioctl := by
  refine ⟨?_, ?_, ?_, ?_, ?_, ?_⟩ <;>
    simp [allow_up, bring_down, is_up, get_flags, set_flags, hv, flagsUp_land_not_up]

/-- Witness for C7 on a concrete name and flag word. -/
theorem C7_error_semantics_witness :
    validate_name [101, 110, 48] = Except.ok () ∧
    (allow_up (⟨false, 7, true, true, true⟩ : OsIface) [101, 110, 48]).1 = Except.ok () ∧
    (bring_down (⟨false, 7, true, true, true⟩ : OsIface) [101, 110, 48]).1 =
      Except.error (InterfaceError.NotFound [101, 110, 48]) ∧
    (allow_up (⟨true, 7, true, false, true⟩ : OsIface) [101, 110, 48]).1 =
      Except.error InterfaceError.Ioctl :=
  ⟨by decide,
    (C7_error_semantics [101, 110, 48] 7 true true (by decide)).1,
    (C7_error_semantics [101, 110, 48] 7 true true (by decide)).2.1,
    (C7_error_semantics [101, 110, 48] 7 true true (by decide)).2.2.2.1⟩

/-- C9 counterexample: on a 16-byte name, `bring_down` does return the
NameTooLong validation error, but a syscall (the `socket(2)` call of
`create_socket`, which runs before `validate_name`) has been attempted,
so the validation error does not come before every syscall. -/
theorem C9_counterexample :
    (bring_down (⟨true, 65, true, true, true⟩ : OsIface) (List.replicate 16 97)).1 =
      Except.error (InterfaceError.NameTooLong (List.replicate 16 97)) ∧
    (bring_down (⟨true, 65, true, true, true⟩ : OsIface) (List.replicate 16 97)).2.2 ≠ [] ∧
    Syscall.sockOpen ∈
      (bring_down (⟨true, 65, true, true, true⟩ : OsIface) (List.replicate 16 97)).2.2 := by
  decide

/-- C9 amended: provided socket creation succeeds, `bring_down`,
`allow_up` and `is_up` on a name longer than 15 bytes or containing a
null byte fail with NameTooLong or InvalidName and never attempt an
ioctl on the interface (a socket is still created first); a 15-byte
null-free name passes validation. -/
theorem C9_amended_validation (os : OsIface) (name name2 : Name)
    (hs : os.sockOk = true)
    (hbad : 15 < name.length ∨ name.contains 0 = true)
    (h2a : name2.length = 15) (h2b : name2.contains 0 = false) :
    ((bring_down os name).1 = Except.error (InterfaceError.NameTooLong name) ∨
      (bring_down os name).1 = Except.error (InterfaceError.InvalidName name)) ∧
    ((allow_up os name).1 = Except.error (InterfaceError.NameTooLong name) ∨
      (allow_up os name).1 = Except.error (InterfaceError.InvalidName name)) ∧
    ((is_up os name).1 = Except.error (InterfaceError.NameTooLong name) ∨
      (is_up os name).1 = Except.error (InterfaceError.InvalidName name)) ∧
    Syscall.ioctlGet ∉ (bring_down os name).2.2 ∧
    Syscall.ioctlSet ∉ (bring_down os name).2.2 ∧
    Syscall.ioctlGet ∉ (allow_up os name).2.2 ∧
    Syscall.ioctlSet ∉ (allow_up os name).2.2 ∧
    Syscall.ioctlGet ∉ (is_up os name).2.2 ∧
    Syscall.ioctlSet ∉ (is_up os name).2.2 ∧
    validate_name name2 = Except.ok () := by
  have hval : validate_name name = Except.error (InterfaceError.NameTooLong name) ∨
      validate_name name = Except.error (InterfaceError.InvalidName name) := by
    by_cases hL : 15 < name.length
    · exact Or.inl (by simp [validate_name, hL])
    · have hc : 0 ∈ name := by
        rcases hbad with h | h
        · exact absurd h hL
        · simpa using h
      exact Or.inr (by simp [validate_name, hL, hc])
  have hok2 : validate_name name2 = Except.ok () := by
    have h2b' : ¬(0 ∈ name2) := by simpa using h2b
    simp [validate_name, h2a, h2b']
  rcases hval with hv | hv <;>
    refine ⟨?_, ?_, ?_, ?_, ?_, ?_, ?_, ?_, ?_, hok2⟩ <;>
      simp [bring_down, allow_up, is_up, get_flags, hs, hv]

/-- Witness for C9 on a 16-byte name and a 15-byte name. -/
theorem C9_amended_validation_witness :
    (15 < (List.replicate 16 97 : Name).length ∨
      (List.replicate 16 97 : Name).contains 0 = true) ∧
    (List.replicate 15 97 : Name).length = 15 ∧
    ((bring_down (⟨true, 65, true, true, true⟩ : OsIface) (List.replicate 16 97)).1 =
        Except.error (InterfaceError.NameTooLong (List.replicate 16 97)) ∨
      (bring_down (⟨true, 65, true, true, true⟩ : OsIface) (List.replicate 16 97)).1 =
        Except.error (InterfaceError.InvalidName (List.replicate 16 97))) ∧
    Syscall.ioctlGet ∉
      (bring_down (⟨true, 65, true, true, true⟩ : OsIface) (List.replicate 16 97)).2.2 ∧
    validate_name (List.replicate 15 97) = Except.ok () :=
  ⟨by decide, by decide,
    (C9_amended_validation ⟨true, 65, true, true, true⟩ (List.replicate 16 97)
      (List.replicate 15 97) rfl (by decide) (by decide) (by decide)).1,
    (C9_amended_validation ⟨true, 65, true, true, true⟩ (List.replicate 16 97)
      (List.replicate 15 97) rfl (by decide) (by decide) (by decide)).2.2.2.1,
    (C9_amended_validation ⟨true, 65, true, true, true⟩ (List.replicate 16 97)
      (List.replicate 15 97) rfl (by decide) (by decide) (by decide)).2.2.2.2.2.2.2.2.2⟩

/-- C10: `is_up` never modifies the interface state and never attempts
the write ioctl, whether it succeeds or fails. -/
theorem C10_is_up_read_only (os : OsIface) (name : Name) :
    (is_up os name).2.1 = os ∧ Syscall.ioctlSet ∉ (is_up os name).2.2 := by
  refine ⟨is_up_state os name, ?_⟩
  rw [is_up_trace]
  rcases get_flags_trace os name with h | h <;> rw [h] <;> decide

/-! ### Coordination-layer helper lemmas -/

theorem process_callback_terminated_gfn (b : String) (p : Int) (g : Bool) (os : OsIface) :
    (process_callback (ProcessEvent.Terminated b p) g os).gfn = false := by
  simp only [process_callback]
  split <;> rfl

theorem poll_step_pid (target : String) (s : Daemon) (f : Bool) :
    (poll_step target s f).1.currentPid = s.currentPid := by
  unfold poll_step
  split
  · rfl
  · split
    · rfl
    · split
      · rfl
      · rfl

theorem poll_step_polling (target : String) (s : Daemon) (f : Bool) :
    (poll_step target s f).1.pollingActive = s.pollingActive := by
  unfold poll_step
  split
  · rfl
  · split
    · rfl
    · split
      · rfl
      · rfl

theorem poll_step_inactive (target : String) (s : Daemon) (f : Bool)
    (h : s.pollingActive = false) : poll_step target s f = (s, [], []) := by
  simp [poll_step, h]

theorem poll_step_true_noedge (target : String) (s : Daemon)
    (hs : s.isStreaming = true) : poll_step target s true = (s, [], []) := by
  unfold poll_step
  split
  · rfl
  · simp [hs]

theorem poll_step_false_noedge (target : String) (s : Daemon)
    (hs : s.isStreaming = false) : poll_step target s false = (s, [], []) := by
  unfold poll_step
  split
  · rfl
  · simp [hs]

theorem poll_step_start (target : String) (s : Daemon)
    (hp : s.pollingActive = true) (hs : s.isStreaming = false) :
    poll_step target s true =
      ({ s with isStreaming := true, gfnStreaming := true,
                os := (bring_down s.os AWDL_INTERFACE).2.1 },
        [Act.bringDown], [ProcessEvent.StreamStarted target s.currentPid]) := by
  simp [poll_step, hp, hs, process_callback]

theorem poll_step_end (target : String) (s : Daemon)
    (hp : s.pollingActive = true) (hs : s.isStreaming = true) :
    poll_step target s false =
      ({ s with isStreaming := false, gfnStreaming := false,
                os := (allow_up s.os AWDL_INTERFACE).2.1 },
        [Act.allowUp], [ProcessEvent.StreamEnded target s.currentPid]) := by
  simp [poll_step, hp, hs, process_callback]

theorem link_step_not_streaming (s : Daemon) (h : s.gfnStreaming = false) :
    link_step s = (s, [], []) := by
  cases s with
  | mk pid istr pact gfn os =>
    simp only at h
    subst h
    simp [link_step, interface_callback]

theorem inv_init (os : OsIface) : Inv (initDaemon os) := fun _ => ⟨rfl, rfl, rfl⟩

theorem inv_step (target : String) (s : Daemon) (st : Stimulus)
    (hinv : Inv s) (hwf : st.wfb = true) : Inv (step target s st).1 := by
  cases st with
  | launch b p =>
    have hp : (0 : Int) < p := by simpa [Stimulus.wfb] using hwf
    by_cases hb : b ≠ target
    · simp only [step, handle_notification, if_pos hb]
      exact hinv
    · simp only [step, handle_notification, if_neg hb]
      intro h0
      have hp0 : p = 0 := h0
      omega
  | terminate b p =>
    by_cases hb : b ≠ target
    · simp only [step, handle_notification, if_pos hb]
      exact hinv
    · simp only [step, handle_notification, if_neg hb]
      intro h0
      exact ⟨rfl, rfl, process_callback_terminated_gfn b p _ _⟩
  | poll f =>
    by_cases h0 : s.currentPid = 0
    · rcases hinv h0 with ⟨hpoll, _, _⟩
      simp only [step]
      rw [poll_step_inactive target s f hpoll]
      exact hinv
    · intro hznew
      simp only [step] at hznew
      rw [poll_step_pid target s f] at hznew
      exact absurd hznew h0
  | linkChange =>
    intro h0
    exact hinv h0
  | osExternal os2 =>
    intro h0
    exact hinv h0

theorem reachable_inv {target : String} {s : Daemon} (h : Reachable target s) : Inv s := by
  induction h with
  | init os => exact inv_init os
  | next s' st _ hwf ih => exact inv_step target s' st ih hwf

theorem run_polls_append (target : String) (s : Daemon) (l1 l2 : List Bool) :
    run_polls target s (l1 ++ l2) =
      ((run_polls target (run_polls target s l1).1 l2).1,
        (run_polls target s l1).2 ++ (run_polls target (run_polls target s l1).1 l2).2) := by
  induction l1 generalizing s with
  | nil => simp [run_polls]
  | cons f rest ih => simp [run_polls, ih]

theorem run_polls_true_streaming (target : String) (s : Daemon) (k : Nat)
    (hs : s.isStreaming = true) :
    run_polls target s (List.replicate k true) = (s, []) := by
  induction k with
  | zero => rfl
  | succ n ih => simp [List.replicate_succ, run_polls, poll_step_true_noedge target s hs, ih]

theorem run_polls_false_not_streaming (target : String) (s : Daemon) (k : Nat)
    (hs : s.isStreaming = false) :
    run_polls target s (List.replicate k false) = (s, []) := by
  induction k with
  | zero => rfl
  | succ n ih => simp [List.replicate_succ, run_polls, poll_step_false_noedge target s hs, ih]

/-! ## Claims about the event coordination layer -/

/-- C1: in every reachable daemon state, either streaming flag can be
set only while a process is tracked (pid nonzero); in particular, when
no process is tracked, any poll sample or interface link-change event
leaves the state unchanged and performs no controller call. -/
theorem C1_streaming_only_while_tracked (target : String) (s : Daemon)
    (h : Reachable target s) :
    ((s.gfnStreaming = true ∨ s.isStreaming = true) → s.currentPid ≠ 0) ∧
    (s.currentPid = 0 →
      (∀ f, step target s (Stimulus.poll f) = (s, [], [])) ∧
      step target s Stimulus.linkChange = (s, [], [])) := by
  have hinv := reachable_inv h
  constructor
  · rintro (hg | hs') h0
    · rcases hinv h0 with ⟨_, _, hgfn⟩
      rw [hg] at hgfn
      exact absurd hgfn (by simp)
    · rcases hinv h0 with ⟨_, hstr, _⟩
      rw [hs'] at hstr
      exact absurd hstr (by simp)
  · intro h0
    rcases hinv h0 with ⟨hpoll, _, hgfn⟩
    exact ⟨fun f => poll_step_inactive target s f hpoll, link_step_not_streaming s hgfn⟩

/-- Witness for C1: the state reached by launch(pid 100) then one
fullscreen sample has a nonzero tracked pid while streaming, and at the
startup state poll and link events are no-ops. -/
theorem C1_streaming_only_while_tracked_witness :
    c4_state.currentPid ≠ 0 ∧
    (∀ f, step "t" (initDaemon osUp) (Stimulus.poll f) = (initDaemon osUp, [], [])) ∧
    step "t" (initDaemon osUp) Stimulus.linkChange = (initDaemon osUp, [], []) :=
  ⟨(C1_streaming_only_while_tracked "t" c4_state
      (Reachable.next _ (Stimulus.poll true)
        (Reachable.next _ (Stimulus.launch "t" 100) (Reachable.init osUp) (by decide))
        (by decide))).1 (Or.inl (by decide)),
    ((C1_streaming_only_while_tracked "t" (initDaemon osUp) (Reachable.init osUp)).2 rfl).1,
    ((C1_streaming_only_while_tracked "t" (initDaemon osUp) (Reachable.init osUp)).2 rfl).2⟩

/-- C2: while `gfn_streaming` is set, a link-change event makes exactly
one additional `bring_down` call when `is_up` answers true and no
actuation call when it answers false; while not streaming the event is
ignored entirely. -/
theorem C2_link_change_race_correction (target : String) (s : Daemon) :
    (s.gfnStreaming = true → (is_up s.os AWDL_INTERFACE).1 = Except.ok true →
      (step target s Stimulus.linkChange).2.1.count Act.bringDown = 1 ∧
      (step target s Stimulus.linkChange).2.1.count Act.allowUp = 0) ∧
    (s.gfnStreaming = true → (is_up s.os AWDL_INTERFACE).1 = Except.ok false →
      (step target s Stimulus.linkChange).2.1.count Act.bringDown = 0 ∧
      (step target s Stimulus.linkChange).2.1.count Act.allowUp = 0) ∧
    (s.gfnStreaming = false → step target s Stimulus.linkChange = (s, [], [])) := by
  refine ⟨?_, ?_, fun hg => link_step_not_streaming s hg⟩ <;>
    intro hg hup <;>
    simp [step, link_step, interface_callback, hg, hup, List.count_cons]

/-- Witness for C2 at concrete Running states over an up and a down
interface, and at an Idle state. -/
theorem C2_link_change_race_correction_witness :
    ((step "t" ⟨100, true, true, true, osUp⟩ Stimulus.linkChange).2.1.count Act.bringDown = 1 ∧
      (step "t" ⟨100, true, true, true, osUp⟩ Stimulus.linkChange).2.1.count Act.allowUp = 0) ∧
    ((step "t" ⟨100, true, true, true, osDown⟩ Stimulus.linkChange).2.1.count Act.bringDown = 0 ∧
      (step "t" ⟨100, true, true, true, osDown⟩ Stimulus.linkChange).2.1.count Act.allowUp = 0) ∧
    step "t" (initDaemon osUp) Stimulus.linkChange = (initDaemon osUp, [], []) :=
  ⟨(C2_link_change_race_correction "t" ⟨100, true, true, true, osUp⟩).1 rfl (by decide),
    (C2_link_change_race_correction "t" ⟨100, true, true, true, osDown⟩).2.1 rfl (by decide),
    (C2_link_change_race_correction "t" (initDaemon osUp)).2.2 rfl⟩

/-- C3: at shutdown the run loop epilogue makes exactly one final
`allow_up` call when the streaming flag is set and none otherwise, and
it returns Ok in every case (an `allow_up` failure is only logged). -/
theorem C3_shutdown_final_allow_up (gfn : Bool) (os : OsIface) :
    (run_daemon_shutdown gfn os).1 = Except.ok () ∧
    (gfn = true → (run_daemon_shutdown gfn os).2.2 = [Act.allowUp]) ∧
    (gfn = false → (run_daemon_shutdown gfn os).2.2 = []) := by
  cases gfn <;> simp [run_daemon_shutdown]

/-- Witness for C3 on an interface whose read ioctl fails, so the final
`allow_up` fails and the epilogue still returns Ok. -/
theorem C3_shutdown_final_allow_up_witness :
    (allow_up (⟨true, 64, true, false, true⟩ : OsIface) AWDL_INTERFACE).1 =
      Except.error InterfaceError.Ioctl ∧
    (run_daemon_shutdown true ⟨true, 64, true, false, true⟩).1 = Except.ok () ∧
    (run_daemon_shutdown true ⟨true, 64, true, false, true⟩).2.2 = [Act.allowUp] ∧
    (run_daemon_shutdown false ⟨true, 64, true, false, true⟩).2.2 = [] :=
  ⟨by decide,
    (C3_shutdown_final_allow_up true ⟨true, 64, true, false, true⟩).1,
    (C3_shutdown_final_allow_up true ⟨true, 64, true, false, true⟩).2.1 rfl,
    (C3_shutdown_final_allow_up false ⟨true, 64, true, false, true⟩).2.2 rfl⟩

/-- C4 counterexample: in the Running state reached by launch(pid 100)
and one fullscreen sample, a Terminated notification for the target
bundle with the different pid 50 is not ignored: it changes the state
and makes an `allow_up` call, because `handle_notification` filters on
bundle id only and never compares the pid to `current_pid`. -/
theorem C4_stale_terminated_counterexample :
    c4_state.currentPid = 100 ∧
    (step "t" c4_state (Stimulus.terminate "t" 50)).1 ≠ c4_state ∧
    (step "t" c4_state (Stimulus.terminate "t" 50)).2.1.count Act.allowUp = 1 := by
  decide

/-- C4 amended: a Terminated notification whose bundle id is not the
target produces no state change, no controller call and no event; and
in any reachable state with no tracked process, a Terminated for the
target bundle (any pid) also produces no state change and no controller
call.  The pid itself is never compared. -/
theorem C4_stale_terminated_amended (target bundle : String) (pid : Int) (s : Daemon) :
    (bundle ≠ target → step target s (Stimulus.terminate bundle pid) = (s, [], [])) ∧
    (Reachable target s → s.currentPid = 0 →
      (step target s (Stimulus.terminate target pid)).1 = s ∧
      (step target s (Stimulus.terminate target pid)).2.1 = []) := by
  constructor
  · intro hb
    simp [step, handle_notification, hb]
  · intro hr h0
    rcases reachable_inv hr h0 with ⟨hpoll, hstream, hgfn⟩
    cases s with
    | mk pid2 istr pact gfn os =>
      simp only at h0 hpoll hstream hgfn
      subst h0
      subst hpoll
      subst hstream
      subst hgfn
      constructor <;> simp [step, handle_notification, process_callback]

/-- Witness for C4: a non-target Terminated and a stale target
Terminated at the startup state are both complete no-ops. -/
theorem C4_stale_terminated_amended_witness :
    step "t" (initDaemon osUp) (Stimulus.terminate "x" 50) = (initDaemon osUp, [], []) ∧
    (step "t" (initDaemon osUp) (Stimulus.terminate "t" 50)).1 = initDaemon osUp ∧
    (step "t" (initDaemon osUp) (Stimulus.terminate "t" 50)).2.1 = [] :=
  ⟨(C4_stale_terminated_amended "t" "x" 50 (initDaemon osUp)).1 (by decide),
    ((C4_stale_terminated_amended "t" "t" 50 (initDaemon osUp)).2 (Reachable.init osUp) rfl).1,
    ((C4_stale_terminated_amended "t" "t" 50 (initDaemon osUp)).2 (Reachable.init osUp) rfl).2⟩

/-- C8: starting in the not-streaming state with polling active, a
contiguous fullscreen span of any length emits exactly one StreamStarted
and no StreamEnded, and following it by a non-fullscreen span emits
exactly one StreamEnded (edge-triggered sampling). -/
theorem C8_edge_triggered (target : String) (s : Daemon) (n m : Nat)
    (hp : s.pollingActive = true) (hs : s.isStreaming = false) :
    ((run_polls target s (List.replicate (n + 1) true)).2.countP isStart = 1 ∧
      (run_polls target s (List.replicate (n + 1) true)).2.countP isEnd = 0) ∧
    ((run_polls target s
        (List.replicate (n + 1) true ++ List.replicate (m + 1) false)).2.countP isStart = 1 ∧
      (run_polls target s
        (List.replicate (n + 1) true ++ List.replicate (m + 1) false)).2.countP isEnd = 1) := by
  have hrest := run_polls_true_streaming target
    { s with isStreaming := true, gfnStreaming := true,
             os := (bring_down s.os AWDL_INTERFACE).2.1 } n rfl
  have hrun1 : run_polls target s (List.replicate (n + 1) true) =
      ({ s with isStreaming := true, gfnStreaming := true,
                os := (bring_down s.os AWDL_INTERFACE).2.1 },
        [ProcessEvent.StreamStarted target s.currentPid]) := by
    simp [List.replicate_succ, run_polls, poll_step_start target s hp hs, hrest]
  have hstep2 := poll_step_end target
    { s with isStreaming := true, gfnStreaming := true,
             os := (bring_down s.os AWDL_INTERFACE).2.1 } hp rfl
  have hrest2 := run_polls_false_not_streaming target
    { s with isStreaming := false, gfnStreaming := false,
             os := (allow_up (bring_down s.os AWDL_INTERFACE).2.1 AWDL_INTERFACE).2.1 } m rfl
  have hrun2 : run_polls target
      { s with isStreaming := true, gfnStreaming := true,
               os := (bring_down s.os AWDL_INTERFACE).2.1 }
      (List.replicate (m + 1) false) =
      ({ s with isStreaming := false, gfnStreaming := false,
                os := (allow_up (bring_down s.os AWDL_INTERFACE).2.1 AWDL_INTERFACE).2.1 },
        [ProcessEvent.StreamEnded target s.currentPid]) := by
    simp [List.replicate_succ, run_polls, hstep2, hrest2]
  refine ⟨⟨?_, ?_⟩, ?_, ?_⟩ <;>
    simp [run_polls_append, hrun1, hrun2, isStart, isEnd]

/-- Witness for C8: after launch(pid 100) the detector state has polling
active and streaming clear; three fullscreen samples yield one
StreamStarted and no StreamEnded, and appending one non-fullscreen
sample yields exactly one StreamEnded. -/
theorem C8_edge_triggered_witness :
    (step "t" (initDaemon osUp) (Stimulus.launch "t" 100)).1.pollingActive = true ∧
    (step "t" (initDaemon osUp) (Stimulus.launch "t" 100)).1.isStreaming = false ∧
    ((run_polls "t" (step "t" (initDaemon osUp) (Stimulus.launch "t" 100)).1
        (List.replicate 3 true)).2.countP isStart = 1 ∧
      (run_polls "t" (step "t" (initDaemon osUp) (Stimulus.launch "t" 100)).1
        (List.replicate 3 true)).2.countP isEnd = 0) ∧
    ((run_polls "t" (step "t" (initDaemon osUp) (Stimulus.launch "t" 100)).1
        (List.replicate 3 true ++ List.replicate 1 false)).2.countP isStart = 1 ∧
      (run_polls "t" (step "t" (initDaemon osUp) (Stimulus.launch "t" 100)).1
        (List.replicate 3 true ++ List.replicate 1 false)).2.countP isEnd = 1) :=
  ⟨by decide, by decide,
    (C8_edge_triggered "t" (step "t" (initDaemon osUp) (Stimulus.launch "t" 100)).1 2 0
      (by decide) (by decide)).1,
    (C8_edge_triggered "t" (step "t" (initDaemon osUp) (Stimulus.launch "t" 100)).1 2 0
      (by decide) (by decide)).2⟩
